import Mathlib

/-!
# Verification of the AkadeetApi ticketing core

Shallow embedding of the ticket-issuance and admission-validation core of
`src/main.py` (Flask app `AKADIT API`), together with proofs of the spec's
testable properties.

Conventions of the embedding:
* Python strings are modelled as `List Char` where the content is processed
  character-wise (QR payloads, transaction ids) and as `String` for opaque
  human-readable messages.
* Database tables are association lists keyed by their integer primary key;
  auto-increment ids are modelled by `nextDetailsId` / `nextIssueId` counters.
* A single MySQL transaction (`conn.commit()` / `conn.rollback()`) is modelled
  by threading a pending state and returning either the fully updated state
  (commit) or the original state (rollback).
* `datetime.now()` is an explicit `now : Nat` parameter.
* Currency amounts (`DECIMAL` columns, Python floats) are `ℚ`.
-/

/-- Decimal digit `d` (with `d < 10`) as the character `'0'..'9'`,
modelling Python's `str` of a digit. -/
def digitToChar (d : Nat) : Char := Char.ofNat (48 + d)

/-- Numeric value of a decimal digit character. -/
def charToDigit (c : Char) : Nat := c.toNat - 48

/-- Is `c` one of `'0'..'9'`? -/
def isDigitCh (c : Char) : Bool := decide (48 ≤ c.toNat) && decide (c.toNat ≤ 57)

/-- Fuel-driven digit printer (most-significant digit first); the fuel makes
the recursion structural so that terms reduce inside the kernel. -/
def natToStrAux : Nat → Nat → List Char
  | 0, _ => []
  | fuel + 1, n =>
    if n = 0 then [] else natToStrAux fuel (n / 10) ++ [digitToChar (n % 10)]

/-- Python `str(n)` for a natural number: most-significant digit first. -/
def natToStr (n : Nat) : List Char :=
  if n = 0 then [Char.ofNat 48] else natToStrAux (n + 1) n

/-- Python `int(s)` on an unsigned decimal string: `some` value when `s` is a
nonempty all-digit string, `none` when `int()` would raise `ValueError`.
(The model restricts `int()` to the unsigned decimal forms relevant here.) -/
def strToNat? (s : List Char) : Option Nat :=
  if s ≠ [] ∧ s.all isDigitCh then
    some (Nat.ofDigits 10 ((s.map charToDigit).reverse))
  else none

theorem charToDigit_digitToChar {d : Nat} (h : d < 10) :
    charToDigit (digitToChar d) = d := by
  interval_cases d <;> decide

theorem isDigitCh_digitToChar {d : Nat} (h : d < 10) :
    isDigitCh (digitToChar d) = true := by
  interval_cases d <;> decide

theorem digitToChar_ne_pipe {d : Nat} (h : d < 10) : digitToChar d ≠ '|' := by
  interval_cases d <;> decide

theorem natToStrAux_digits : ∀ (fuel n : Nat), n ≤ fuel →
    natToStrAux fuel n = ((Nat.digits 10 n).map digitToChar).reverse := by
  intro fuel
  induction fuel with
  | zero =>
    intro n hn
    interval_cases n
    simp [natToStrAux]
  | succ fuel ih =>
    intro n hn
    by_cases h0 : n = 0
    · subst h0; simp [natToStrAux]
    · have hpos : 0 < n := Nat.pos_of_ne_zero h0
      have hdiv : n / 10 ≤ fuel := by
        have : n / 10 < n := Nat.div_lt_self hpos (by norm_num)
        omega
      unfold natToStrAux
      rw [if_neg h0, ih (n / 10) hdiv,
        Nat.digits_def' (by norm_num : (1 : ℕ) < 10) hpos]
      simp

/-- `natToStr` agrees with the base-10 digit expansion. -/
theorem natToStr_eq_digits (n : Nat) :
    natToStr n =
      if n = 0 then [Char.ofNat 48]
      else ((Nat.digits 10 n).map digitToChar).reverse := by
  unfold natToStr
  by_cases h0 : n = 0
  · simp [h0]
  · rw [if_neg h0, if_neg h0, natToStrAux_digits (n + 1) n (Nat.le_succ n)]

/-- Decoding inverts printing: `int(str(n)) = n`. -/
theorem strToNat?_natToStr (n : Nat) : strToNat? (natToStr n) = some n := by
  by_cases h0 : n = 0
  · subst h0; decide
  · have hne : Nat.digits 10 n ≠ [] := Nat.digits_ne_nil_iff_ne_zero.mpr h0
    have hlt : ∀ d ∈ Nat.digits 10 n, d < 10 :=
      fun d hd => Nat.digits_lt_base (by norm_num) hd
    rw [natToStr_eq_digits]
    unfold strToNat?
    rw [if_neg h0]
    have hall : (((Nat.digits 10 n).map digitToChar).reverse).all isDigitCh = true := by
      rw [List.all_eq_true]
      intro c hc
      rw [List.mem_reverse, List.mem_map] at hc
      obtain ⟨d, hd, rfl⟩ := hc
      exact isDigitCh_digitToChar (hlt d hd)
    have hnil : ((Nat.digits 10 n).map digitToChar).reverse ≠ [] := by
      simp [hne]
    rw [if_pos ⟨hnil, hall⟩]
    congr 1
    rw [List.map_reverse, List.reverse_reverse, List.map_map]
    have hmap : (Nat.digits 10 n).map (charToDigit ∘ digitToChar) = (Nat.digits 10 n).map id :=
      List.map_congr_left fun d hd => charToDigit_digitToChar (hlt d hd)
    rw [hmap, List.map_id, Nat.ofDigits_digits]

theorem natToStr_no_pipe (n : Nat) : '|' ∉ natToStr n := by
  by_cases h0 : n = 0
  · subst h0; decide
  · rw [natToStr_eq_digits]
    rw [if_neg h0]
    intro hmem
    rw [List.mem_reverse, List.mem_map] at hmem
    obtain ⟨d, hd, hEq⟩ := hmem
    exact digitToChar_ne_pipe (Nat.digits_lt_base (by norm_num) hd) hEq

/-- Python `s.split(sep)` for a one-character separator. -/
def splitOnP (sep : Char) : List Char → List (List Char)
  | [] => [[]]
  | c :: cs =>
    let r := splitOnP sep cs
    if c = sep then [] :: r else (c :: r.headI) :: r.tail

theorem splitOnP_cons_ne {sep c : Char} (cs : List Char) (hc : c ≠ sep) :
    splitOnP sep (c :: cs) =
      (c :: (splitOnP sep cs).headI) :: (splitOnP sep cs).tail := by
  simp only [splitOnP, if_neg hc]

theorem splitOnP_no_sep {sep : Char} {l : List Char} (h : sep ∉ l) :
    splitOnP sep l = [l] := by
  induction l with
  | nil => rfl
  | cons c cs ih =>
    have hc : c ≠ sep := fun hEq => h (hEq ▸ List.mem_cons_self c cs)
    have hcs : sep ∉ cs := fun hm => h (List.mem_cons_of_mem c hm)
    rw [splitOnP_cons_ne cs hc, ih hcs]
    rfl

theorem splitOnP_append {sep : Char} {a : List Char} (rest : List Char)
    (h : sep ∉ a) : splitOnP sep (a ++ sep :: rest) = a :: splitOnP sep rest := by
  induction a with
  | nil => simp [splitOnP]
  | cons c cs ih =>
    have hc : c ≠ sep := fun hEq => h (hEq ▸ List.mem_cons_self c cs)
    have hcs : sep ∉ cs := fun hm => h (List.mem_cons_of_mem c hm)
    rw [List.cons_append, splitOnP_cons_ne _ hc, ih hcs]
    rfl

/-!
## Credential Codec

Modelled from the spec: the functions `utils.utils.generate_qr_string` and
`utils.utils.decrypt_qr_data` are imported by `src/main.py` but their source
file is not part of the repository snapshot.  Per spec §4.1 the codec encodes
`intentId`, `unitId` and a generation timestamp as a pipe-separated string
protected by a reversible obfuscation under a fixed key, and decoding is the
exact inverse, failing when the payload cannot be reversed.  The reversible
obfuscation is modelled as a fixed key marker plus character-sequence
reversal; decoding fails (`MalformedCredential`) on payloads not carrying the
key marker.
-/

/-- Fixed secret-key marker of the modelled obfuscation. -/
def keyMark : Char := 'K'

/-- Modelled from the spec: reversible obfuscation applied by the codec. -/
def encryptPayload (s : List Char) : List Char := keyMark :: s.reverse

/-- Modelled from the spec: `utils.utils.decrypt_qr_data`; fails on payloads
that cannot be reversed (missing key marker). -/
def decrypt_qr_data : List Char → Option (List Char)
  | [] => none
  | c :: rest => if c = keyMark then some rest.reverse else none

/-- Modelled from the spec: `utils.utils.generate_qr_string ticket_issue_id
details_id` builds `str(intentId) + "|" + str(unitId) + "|" + timestamp` and
obfuscates it. The generation timestamp is an explicit parameter. -/
def generate_qr_string (ticketIssueId detailsId : Nat) (ts : List Char) : List Char :=
  encryptPayload (natToStr ticketIssueId ++ '|' :: (natToStr detailsId ++ '|' :: ts))

theorem decrypt_encrypt (s : List Char) : decrypt_qr_data (encryptPayload s) = some s := by
  simp [decrypt_qr_data, encryptPayload]

/-- The three-field parse performed by `scan_qr` (`src/main.py` lines 320-326):
`ticket_issue_id, details_id, ts = decoded.split("|")` followed by
`details_id = int(details_id)`. -/
def parse3 (decoded : List Char) : Option (List Char × Nat × List Char) :=
  match splitOnP '|' decoded with
  | [a, b, c] =>
    match strToNat? b with
    | some d => some (a, d, c)
    | none => none
  | _ => none

theorem parse3_encode (i d : Nat) {ts : List Char} (hts : '|' ∉ ts) :
    parse3 (natToStr i ++ '|' :: (natToStr d ++ '|' :: ts)) =
      some (natToStr i, d, ts) := by
  unfold parse3
  rw [splitOnP_append _ (natToStr_no_pipe i), splitOnP_append _ (natToStr_no_pipe d),
    splitOnP_no_sep hts]
  simp [strToNat?_natToStr]

/-!
## Issuance Ledger data model

Rows of the `TicketIssue`, `TicketIssueDetails` and `TicketClassification`
tables as read and written by `src/main.py`, restricted to the columns the
core workflow touches.
-/

/-- A `TicketIssue` row (one purchase intent), as selected in
`verify_payment` (`src/main.py` lines 974-985). -/
structure TicketIssueRow where
  ticketMasterId : Nat
  mobileNo : String
  emailId : String
  ticketCount : Nat
  totalAmount : ℚ
  name : String
  transactionId : List Char
deriving Repr, DecidableEq

/-- A `TicketIssueDetails` row (one redeemable ticket unit). -/
structure TicketIssueDetailsRow where
  ticketIssueId : Nat
  qrCode : Option (List Char)
  isPersonEntered : Bool
  entryDateTime : Option Nat
deriving Repr, DecidableEq

/-- A `TicketClassification` row (rate class of an event). -/
structure TicketClassificationRow where
  ticketMasterId : Nat
  ticketClassificationId : Nat
  ticketRate : ℚ
  minimumTickets : Nat
deriving Repr, DecidableEq

/-- The database state: tables as association lists keyed by primary key,
plus the auto-increment counters. -/
structure DB where
  ticketIssues : List (Nat × TicketIssueRow)
  ticketIssueDetails : List (Nat × TicketIssueDetailsRow)
  ticketClassifications : List TicketClassificationRow
  nextIssueId : Nat
  nextDetailsId : Nat
deriving Repr, DecidableEq

/-- `SELECT ... FROM TicketIssue WHERE TicketIssueId = ?`. -/
def findIssue (db : DB) (i : Nat) : Option TicketIssueRow :=
  (db.ticketIssues.find? (fun p => p.1 == i)).map (fun p => p.2)

/-- `SELECT ... FROM TicketIssueDetails WHERE TicketIssueDetailsId = ?`. -/
def findDetails (db : DB) (d : Nat) : Option TicketIssueDetailsRow :=
  (db.ticketIssueDetails.find? (fun p => p.1 == d)).map (fun p => p.2)

/-- `SELECT TicketRate, MinimumTickets FROM TicketClassification WHERE
TicketMasterId = %s AND TicketClassificationId = %s LIMIT 1`. -/
def lookupCls (db : DB) (tm tc : Nat) : Option TicketClassificationRow :=
  db.ticketClassifications.find?
    (fun r => r.ticketMasterId == tm && r.ticketClassificationId == tc)

/-- `UPDATE TicketIssue SET ... WHERE TicketIssueId = ?`. -/
def updateIssue (db : DB) (i : Nat) (f : TicketIssueRow → TicketIssueRow) : DB :=
  { db with ticketIssues :=
      db.ticketIssues.map (fun p => if p.1 == i then (p.1, f p.2) else p) }

/-- `UPDATE TicketIssueDetails SET ... WHERE TicketIssueDetailsId = ?`. -/
def updateDetails (db : DB) (d : Nat)
    (f : TicketIssueDetailsRow → TicketIssueDetailsRow) : DB :=
  { db with ticketIssueDetails :=
      db.ticketIssueDetails.map (fun p => if p.1 == d then (p.1, f p.2) else p) }

/-- `INSERT INTO TicketIssueDetails (TicketIssueId) VALUES (?)` returning the
generated `TicketIssueDetailsId` (`OUTPUT INSERTED.TicketIssueDetailsId`). -/
def insertDetails (db : DB) (ti : Nat) : Nat × DB :=
  (db.nextDetailsId,
    { db with
        ticketIssueDetails := db.ticketIssueDetails ++
          [(db.nextDetailsId,
            { ticketIssueId := ti, qrCode := none
              isPersonEntered := false, entryDateTime := none })]
        nextDetailsId := db.nextDetailsId + 1 })

/-- `INSERT INTO TicketIssue (...) VALUES (...)` returning `cursor.lastrowid`. -/
def insertIssue (db : DB) (row : TicketIssueRow) : Nat × DB :=
  (db.nextIssueId,
    { db with
        ticketIssues := db.ticketIssues ++ [(db.nextIssueId, row)]
        nextIssueId := db.nextIssueId + 1 })

/-- Well-formedness of the auto-increment counters: every existing primary key
is below the corresponding counter (what MySQL auto-increment guarantees). -/
def DBwf (db : DB) : Prop :=
  (∀ p ∈ db.ticketIssues, p.1 < db.nextIssueId) ∧
    (∀ p ∈ db.ticketIssueDetails, p.1 < db.nextDetailsId)

instance (db : DB) : Decidable (DBwf db) := by
  unfold DBwf
  infer_instance

/-- The ticket units owned by intent `ti` (rows of `TicketIssueDetails` with
`TicketIssueId = ti`), in table order. -/
def unitsOf (db : DB) (ti : Nat) : List TicketIssueDetailsRow :=
  (db.ticketIssueDetails.filter (fun p => p.2.ticketIssueId == ti)).map
    (fun p => p.2)

/-!
## Admission Validator: `scan_qr` (`POST /qrScanner`, `src/main.py` 297-386)
-/

/-- Is `c` one of the whitespace characters stripped by Python `str.strip`? -/
def isSpaceCh (c : Char) : Bool :=
  c == ' ' || c == '\t' || c == '\n' || c == '\r'

/-- Python `not qr_code or not qr_code.strip()`: the string is empty or
whitespace-only. -/
def isBlank (s : List Char) : Bool := s.all isSpaceCh

/-- Response of `/qrScanner`, with the optional fields of the success body. -/
structure ScanResponse where
  status : Nat
  message : String
  ticketIssueId : Option Nat := none
  ticketIssueDetailsId : Option Nat := none
deriving Repr, DecidableEq

/-- The mutation committed by `scan_qr` step 6: `UPDATE TicketIssueDetails SET
IsPersonEntered = 1, EntryDateTime = GETDATE() WHERE TicketIssueDetailsId = ?`. -/
def admitUnit (db : DB) (d : Nat) (now : Nat) : DB :=
  updateDetails db d
    (fun r => { r with isPersonEntered := true, entryDateTime := some now })

/-- `scan_qr` from `src/main.py` lines 297-386.  Returns the JSON response and
the resulting database state.  Note the fidelity points:
* the first four checks and the already-used check return before any write;
* the entry mark is committed (line 364) before `int(ticket_issue_id)` is
  evaluated while building the success body (line 372), so a payload whose
  first field is not numeric raises after the commit and the handler answers
  `Internal server error` with the unit nonetheless marked entered. -/
def scan_qr (db : DB) (now : Nat) (qrCode : List Char) : ScanResponse × DB :=
  if isBlank qrCode then
    ({ status := 2, message := "QR code cannot be empty" }, db)
  else
    match decrypt_qr_data qrCode with
    | none => ({ status := 2, message := "Invalid QR code" }, db)
    | some decoded =>
      match parse3 decoded with
      | none => ({ status := 2, message := "Invalid QR code format" }, db)
      | some (tiStr, detailsId, _ts) =>
        match findDetails db detailsId with
        | none => ({ status := 2, message := "Invalid ticket" }, db)
        | some row =>
          if row.isPersonEntered then
            ({ status := 1, message := "Ticket already used" }, db)
          else
            match strToNat? tiStr with
            | some tid =>
              ({ status := 0, message := "Entry allowed",
                 ticketIssueId := some tid, ticketIssueDetailsId := some detailsId },
               admitUnit db detailsId now)
            | none =>
              ({ status := 2, message := "Internal server error" },
               admitUnit db detailsId now)

/-!
## Issuance Workflow: `verify_payment` (`POST /ticket/verifyPayment`,
`src/main.py` 967-1102)
-/

/-- Observable side effects of `verify_payment`, in execution order.
`genPdf` records a call to the artifact generator `create_ticket_pdf`;
`commit` is `conn.commit()` (line 1076); `dispatchNotifications` is the
start of the fire-and-forget `Thread(target=send_email_and_whatsapp, ...)`
(lines 1078-1086). -/
inductive VpEvent where
  | setTransaction
  | insertUnit (d : Nat)
  | setCredential (d : Nat)
  | genPdf (d : Nat)
  | commit
  | dispatchNotifications
deriving Repr, DecidableEq

/-- Response body of `/ticket/verifyPayment`. -/
structure VpResponse where
  status : Nat
  message : String
deriving Repr, DecidableEq

/-- Result of a `verify_payment` call: response, database state visible after
the call (post commit or rollback), and the event trace. -/
structure VpResult where
  resp : VpResponse
  db : DB
  events : List VpEvent
deriving Repr, DecidableEq

/-- Prefix `"pay_"` of a confirmed Razorpay payment token, tested by the
idempotency guard `existing_transaction.startswith("pay_")` (line 1003). -/
def payTok : List Char := ['p', 'a', 'y', '_']

/-- The issuance loop of `verify_payment` (`src/main.py` lines 1039-1074):
for each of the `ticket_count` units, insert the `TicketIssueDetails` row,
encode its credential, persist it onto the row, and render the per-unit PDF.
All database writes are still uncommitted; a PDF-rendering failure aborts the
loop (`none`), which the caller turns into a rollback.  The accumulated event
list is returned in either case. -/
def setCredentialOn (qr : List Char) (r : TicketIssueDetailsRow) :
    TicketIssueDetailsRow :=
  { r with qrCode := some qr }

/-- The net database effect of one loop iteration: the
`INSERT INTO TicketIssueDetails` (line 1041) followed by the
`UPDATE ... SET QRCode = ?` (line 1054) for the id the insert returned. -/
def issueStepDB (db : DB) (ti now : Nat) : DB :=
  updateDetails (insertDetails db ti).2 (insertDetails db ti).1
    (setCredentialOn (generate_qr_string ti (insertDetails db ti).1 (natToStr now)))

/-- Events of one loop iteration for unit id `d`. -/
def issueEvents (d : Nat) : List VpEvent :=
  [VpEvent.insertUnit d, VpEvent.setCredential d, VpEvent.genPdf d]

def issueLoop (pdfGen : Nat → Option String) (ti : Nat) (now : Nat) :
    Nat → DB → List String → List VpEvent →
      Option (DB × List String) × List VpEvent
  | 0, db, pdfs, evs => (some (db, pdfs), evs)
  | Nat.succ n, db, pdfs, evs =>
    match pdfGen (insertDetails db ti).1 with
    | none => (none, evs ++ issueEvents (insertDetails db ti).1)
    | some p =>
      issueLoop pdfGen ti now n (issueStepDB db ti now) (pdfs ++ [p])
        (evs ++ issueEvents (insertDetails db ti).1)

/-- `verify_payment` from `src/main.py` lines 967-1102.  Fidelity points:
* the idempotency guard (lines 1003-1007) fires only when the stored
  `TransactionId` is truthy and starts with `"pay_"`;
* the `TransactionId` update, all unit inserts, credential updates and PDF
  renders happen inside one transaction, committed at line 1076; any failure
  (modelled: a PDF render failure) rolls the whole transaction back
  (line 1094) and reports status 0;
* the notification thread is started only after the commit. -/
def verify_payment (db : DB) (pdfGen : Nat → Option String) (now : Nat)
    (ticketIssueId : Nat) (razorpayPaymentId : List Char) : VpResult :=
  match findIssue db ticketIssueId with
  | none => ⟨⟨0, "TicketIssue not found"⟩, db, []⟩
  | some issue =>
    if !issue.transactionId.isEmpty && payTok.isPrefixOf issue.transactionId then
      ⟨⟨0, "Payment already processed"⟩, db, []⟩
    else
      let db1 := updateIssue db ticketIssueId
        (fun r => { r with transactionId := razorpayPaymentId })
      match issueLoop pdfGen ticketIssueId now issue.ticketCount db1 []
          [VpEvent.setTransaction] with
      | (none, evs) => ⟨⟨0, "Payment verification failed"⟩, db, evs⟩
      | (some (db2, _pdfs), evs) =>
        ⟨⟨1, "Payment verified and tickets issued successfully"⟩, db2,
          evs ++ [VpEvent.commit, VpEvent.dispatchNotifications]⟩

/-!
## Issuance Workflow: `create_razorpay_order` (`POST /ticket/addTicketIssue`,
`src/main.py` 884-964)

The handler computes the total in Python binary floating point:
`rate = float(row[0])`, `total_amount = rate * ticket_count`,
`total_amount_paise = int(total_amount * 100)`.  IEEE-754 binary64
arithmetic is embedded abstractly as a `FloatModel`: value-level functions
on `ℚ` constrained by two facts true of binary64 (every float value is a
dyadic rational; conversion and multiplication are exact on natural numbers
up to `2^53`).
-/

/-- A rational expressible as a binary float value: integer over a power of 2. -/
def IsDyadic (q : ℚ) : Prop := ∃ (z : ℤ) (k : ℕ), q = (z : ℚ) / 2 ^ k

/-- Abstract value semantics of Python (IEEE-754 binary64) float arithmetic:
`ofRat` is conversion to float (`float(x)` on a decimal, int-to-float
promotion), `mul` is float multiplication.  The fields are facts that hold
for binary64. -/
structure FloatModel where
  ofRat : ℚ → ℚ
  mul : ℚ → ℚ → ℚ
  dyadic_ofRat : ∀ q, IsDyadic (ofRat q)
  dyadic_mul : ∀ a b, IsDyadic (mul a b)
  ofRat_nat : ∀ n : ℕ, n ≤ 2 ^ 53 → ofRat (n : ℚ) = (n : ℚ)
  mul_nat : ∀ a b : ℕ, a ≤ 2 ^ 53 → b ≤ 2 ^ 53 → a * b ≤ 2 ^ 53 →
    mul (a : ℚ) (b : ℚ) = ((a * b : ℕ) : ℚ)

/-- Python `int(x)` on a float: truncation toward zero. -/
def pyTrunc (q : ℚ) : ℤ := if 0 ≤ q then ⌊q⌋ else -⌊-q⌋

/-- Response of `/ticket/addTicketIssue`: a client/server error with an HTTP
status code, or the success body `{order_id, ticket_issue_id}`. -/
inductive CroResp where
  | err (code : Nat) (detail : String)
  | ok (orderId : String) (ticketIssueId : Nat)
deriving Repr, DecidableEq

/-- Result of a `create_razorpay_order` call: response, database state, and
the amount (in paise) of the Razorpay order if the gateway was called. -/
structure CroResult where
  resp : CroResp
  db : DB
  gatewayOrder : Option ℤ
deriving Repr, DecidableEq

/-- Request body of `/ticket/addTicketIssue`. -/
structure CroBody where
  ticketMasterId : Nat
  ticketClassificationId : Nat
  ticketCount : Nat
  mobileNo : String
  emailId : String
  name : String
deriving Repr, DecidableEq

/-- `create_razorpay_order` from `src/main.py` lines 884-964.  Steps: rate
lookup (400 `Invalid ticket` if absent), minimum-quantity validation (400
before any gateway call), float total computation, Razorpay order creation,
`TicketIssue` insert with empty `TransactionId`, commit. `gwOrderId` stands
for the order id minted by the external gateway. -/
def create_razorpay_order (db : DB) (F : FloatModel) (gwOrderId : String)
    (_now : Nat) (body : CroBody) : CroResult :=
  match lookupCls db body.ticketMasterId body.ticketClassificationId with
  | none => ⟨CroResp.err 400 "Invalid ticket", db, none⟩
  | some cls =>
    let rate := F.ofRat cls.ticketRate
    if body.ticketCount < cls.minimumTickets then
      ⟨CroResp.err 400
          ("Minimum " ++ (natToStr cls.minimumTickets).asString ++ " tickets required"),
        db, none⟩
    else
      let total := F.mul rate (F.ofRat (body.ticketCount : ℚ))
      let paise := pyTrunc (F.mul total (F.ofRat (100 : ℚ)))
      let ins := insertIssue db
        { ticketMasterId := body.ticketMasterId, mobileNo := body.mobileNo
          emailId := body.emailId, ticketCount := body.ticketCount
          totalAmount := total, name := body.name, transactionId := [] }
      ⟨CroResp.ok gwOrderId ins.1, ins.2, some paise⟩

/-- The `TotalAmount` persisted for the intent created by a successful
`create_razorpay_order` call. -/
def croTotal (r : CroResult) : Option ℚ :=
  match r.resp with
  | CroResp.ok _ ti => (findIssue r.db ti).map (fun row => row.totalAmount)
  | CroResp.err _ _ => none

/-- A concrete inhabitant of `FloatModel`: values on a fixed dyadic grid
(20 fractional bits), rounding by truncation.  Used to instantiate theorems
quantified over float semantics. -/
def roundDya (q : ℚ) : ℚ := (⌊q * 2 ^ 20⌋ : ℚ) / 2 ^ 20

theorem roundDya_nat (n : ℕ) : roundDya (n : ℚ) = (n : ℚ) := by
  unfold roundDya
  have h : ((n : ℚ) * 2 ^ 20) = ((n * 2 ^ 20 : ℕ) : ℚ) := by push_cast; ring
  rw [h, Int.floor_natCast]
  push_cast
  rw [mul_div_assoc]
  norm_num

/-- The dyadic-grid float model. -/
def dyaF : FloatModel where
  ofRat := roundDya
  mul := fun a b => roundDya (a * b)
  dyadic_ofRat := fun q => ⟨⌊q * 2 ^ 20⌋, 20, rfl⟩
  dyadic_mul := fun a b => ⟨⌊a * b * 2 ^ 20⌋, 20, rfl⟩
  ofRat_nat := fun n _ => roundDya_nat n
  mul_nat := fun a b _ _ _ => by
    show roundDya ((a : ℚ) * (b : ℚ)) = ((a * b : ℕ) : ℚ)
    rw [← Nat.cast_mul, roundDya_nat]

theorem not_isDyadic_3003_div_10 : ¬ IsDyadic ((3003 : ℚ) / 10) := by
  rintro ⟨z, k, h⟩
  have h2 : (2 : ℚ) ^ k ≠ 0 := by positivity
  have hq : (3003 : ℚ) * 2 ^ k = z * 10 := by
    field_simp at h
    linarith [h]
  have hz : (3003 : ℤ) * 2 ^ k = z * 10 := by exact_mod_cast hq
  have hdvd : (5 : ℤ) ∣ 3003 * 2 ^ k := ⟨z * 2, by linarith [hz]⟩
  have hp : Prime (5 : ℤ) := by norm_num
  rcases hp.dvd_mul.mp hdvd with h5 | h5
  · norm_num at h5
  · have := hp.dvd_of_dvd_pow h5
    norm_num at this
/-- In any binary floating-point semantics, the float product of the converted
rate `100.1` with the count `3` is a dyadic rational and therefore differs
from the exact decimal total `300.3`. -/
theorem float_total_drifts (F : FloatModel) :
    F.mul (F.ofRat ((1001 : ℚ) / 10)) (F.ofRat ((3 : ℕ) : ℚ)) ≠
      (1001 : ℚ) / 10 * ((3 : ℕ) : ℚ) := by
  intro h
  apply not_isDyadic_3003_div_10
  have hd := F.dyadic_mul (F.ofRat ((1001 : ℚ) / 10)) (F.ofRat ((3 : ℕ) : ℚ))
  rw [h] at hd
  have : (1001 : ℚ) / 10 * ((3 : ℕ) : ℚ) = (3003 : ℚ) / 10 := by
    push_cast
    norm_num
  rwa [this] at hd


/-!
## Helper lemmas about the ledger operations
-/

theorem find?_map_update {α : Type} (f : α → α) (i : Nat) :
    ∀ l : List (Nat × α),
      (l.map (fun p => if p.1 == i then (p.1, f p.2) else p)).find?
          (fun p => p.1 == i) =
        (l.find? (fun p => p.1 == i)).map (fun p => (p.1, f p.2))
  | [] => rfl
  | p :: ps => by
    cases hb : (p.1 == i) with
    | true =>
      simp only [List.map_cons, if_pos hb]
      rw [@List.find?_cons_of_pos _ (fun q : Nat × α => q.1 == i) (p.1, f p.2) _ hb,
        @List.find?_cons_of_pos _ (fun q : Nat × α => q.1 == i) p _ hb,
        Option.map_some']
    | false =>
      simp only [List.map_cons, if_neg (by simp [hb] : ¬ ((p.1 == i) = true))]
      rw [@List.find?_cons_of_neg _ (fun q : Nat × α => q.1 == i) p _ (by simp [hb]),
        @List.find?_cons_of_neg _ (fun q : Nat × α => q.1 == i) p _ (by simp [hb]),
        find?_map_update f i ps]

theorem map_update_no_hit {α : Type} (f : α → α) (d : Nat) :
    ∀ l : List (Nat × α), (∀ p ∈ l, p.1 ≠ d) →
      l.map (fun p => if p.1 == d then (p.1, f p.2) else p) = l
  | [], _ => rfl
  | p :: ps, h => by
    have hp : p.1 ≠ d := h p (List.mem_cons_self p ps)
    have hb : (p.1 == d) = false := beq_false_of_ne hp
    simp only [List.map_cons, if_neg (by simp [hb] : ¬ ((p.1 == d) = true)),
      map_update_no_hit f d ps (fun q hq => h q (List.mem_cons_of_mem p hq))]

theorem findIssue_updateIssue (db : DB) (i : Nat)
    (f : TicketIssueRow → TicketIssueRow) :
    findIssue (updateIssue db i f) i = (findIssue db i).map f := by
  unfold findIssue updateIssue
  rw [find?_map_update]
  cases db.ticketIssues.find? (fun p => p.1 == i) <;> rfl

theorem unitsOf_updateIssue (db : DB) (i : Nat)
    (f : TicketIssueRow → TicketIssueRow) (ti : Nat) :
    unitsOf (updateIssue db i f) ti = unitsOf db ti := rfl

theorem updateIssue_details (db : DB) (i : Nat)
    (f : TicketIssueRow → TicketIssueRow) :
    (updateIssue db i f).ticketIssueDetails = db.ticketIssueDetails := rfl

theorem updateIssue_nextDetails (db : DB) (i : Nat)
    (f : TicketIssueRow → TicketIssueRow) :
    (updateIssue db i f).nextDetailsId = db.nextDetailsId := rfl

theorem insertDetails_fst (db : DB) (ti : Nat) :
    (insertDetails db ti).1 = db.nextDetailsId := rfl

/-- The fully initialised unit row produced by one issuance-loop iteration. -/
def freshUnitRow (ti now d : Nat) : TicketIssueDetailsRow :=
  { ticketIssueId := ti
    qrCode := some (generate_qr_string ti d (natToStr now))
    isPersonEntered := false
    entryDateTime := none }

theorem issueStepDB_issues (db : DB) (ti now : Nat) :
    (issueStepDB db ti now).ticketIssues = db.ticketIssues := rfl

theorem issueStepDB_cls (db : DB) (ti now : Nat) :
    (issueStepDB db ti now).ticketClassifications = db.ticketClassifications := rfl

theorem issueStepDB_nextIssue (db : DB) (ti now : Nat) :
    (issueStepDB db ti now).nextIssueId = db.nextIssueId := rfl

theorem issueStepDB_nextDetails (db : DB) (ti now : Nat) :
    (issueStepDB db ti now).nextDetailsId = db.nextDetailsId + 1 := rfl

theorem issueStepDB_details (db : DB) (ti now : Nat)
    (hwfd : ∀ p ∈ db.ticketIssueDetails, p.1 < db.nextDetailsId) :
    (issueStepDB db ti now).ticketIssueDetails =
      db.ticketIssueDetails ++
        [(db.nextDetailsId, freshUnitRow ti now db.nextDetailsId)] := by
  show ((insertDetails db ti).2.ticketIssueDetails.map
      (fun p => if p.1 == db.nextDetailsId then
        (p.1, setCredentialOn (generate_qr_string ti db.nextDetailsId (natToStr now)) p.2)
        else p)) = _
  rw [show (insertDetails db ti).2.ticketIssueDetails =
      db.ticketIssueDetails ++ [(db.nextDetailsId,
        { ticketIssueId := ti, qrCode := none
          isPersonEntered := false, entryDateTime := none })] from rfl,
    List.map_append,
    map_update_no_hit (setCredentialOn (generate_qr_string ti db.nextDetailsId (natToStr now)))
      db.nextDetailsId db.ticketIssueDetails (fun p hp => Nat.ne_of_lt (hwfd p hp))]
  simp [setCredentialOn, freshUnitRow]

/-- Soundness of the issuance loop on the success path: it leaves the other
tables untouched and appends exactly `n` fresh unit rows, each owned by `ti`,
each with its credential assigned and not yet entered; the event trace is
extended by events that include neither a commit nor a dispatch. -/
theorem issueLoop_sound (pdfGen : Nat → Option String) (ti now : Nat) :
    ∀ (n : Nat) (db : DB) (pdfs : List String) (evs : List VpEvent)
      (db2 : DB) (pdfs2 : List String) (evs2 : List VpEvent),
      (∀ p ∈ db.ticketIssueDetails, p.1 < db.nextDetailsId) →
      issueLoop pdfGen ti now n db pdfs evs = (some (db2, pdfs2), evs2) →
      db2.ticketIssues = db.ticketIssues ∧
        db2.ticketClassifications = db.ticketClassifications ∧
        db2.nextIssueId = db.nextIssueId ∧
        (∀ p ∈ db2.ticketIssueDetails, p.1 < db2.nextDetailsId) ∧
        (∃ L, db2.ticketIssueDetails = db.ticketIssueDetails ++ L ∧
          L.length = n ∧
          ∀ p ∈ L, p.2.ticketIssueId = ti ∧ p.2.qrCode.isSome = true ∧
            p.2.isPersonEntered = false) ∧
        (∃ E, evs2 = evs ++ E ∧ VpEvent.commit ∉ E ∧
          VpEvent.dispatchNotifications ∉ E) := by
  intro n
  induction n with
  | zero =>
    intro db pdfs evs db2 pdfs2 evs2 hwfd hrun
    unfold issueLoop at hrun
    injection hrun with hA hB
    injection hA with hC
    injection hC with hD hE
    subst hD
    subst hB
    exact ⟨rfl, rfl, rfl, hwfd, ⟨[], by simp, rfl, by simp⟩, ⟨[], by simp, by simp, by simp⟩⟩
  | succ n ih =>
    intro db pdfs evs db2 pdfs2 evs2 hwfd hrun
    unfold issueLoop at hrun
    cases hpg : pdfGen (insertDetails db ti).1 with
    | none =>
      simp only [hpg] at hrun
      injection hrun with h1 h2
      exact Option.noConfusion h1
    | some p =>
      simp only [hpg] at hrun
      have hwfd2 : ∀ q ∈ (issueStepDB db ti now).ticketIssueDetails,
          q.1 < (issueStepDB db ti now).nextDetailsId := by
        rw [issueStepDB_details db ti now hwfd, issueStepDB_nextDetails]
        intro q hq
        rcases List.mem_append.mp hq with hq | hq
        · exact Nat.lt_succ_of_lt (hwfd q hq)
        · rw [List.mem_singleton.mp hq]
          exact Nat.lt_succ_self _
      obtain ⟨hIss, hCls, hNI, hwf3, ⟨L, hL, hLen, hMem⟩, ⟨E, hE, hcE, hdE⟩⟩ :=
        ih (issueStepDB db ti now) (pdfs ++ [p])
          (evs ++ issueEvents (insertDetails db ti).1) db2 pdfs2 evs2 hwfd2 hrun
      refine ⟨hIss.trans (issueStepDB_issues db ti now),
        hCls.trans (issueStepDB_cls db ti now),
        hNI.trans (issueStepDB_nextIssue db ti now), hwf3, ?_, ?_⟩
      · refine ⟨(db.nextDetailsId, freshUnitRow ti now db.nextDetailsId) :: L, ?_,
          by simp [hLen], ?_⟩
        · rw [hL, issueStepDB_details db ti now hwfd]
          simp
        · intro q hq
          rcases List.mem_cons.mp hq with hq | hq
          · rw [hq]
            exact ⟨rfl, rfl, rfl⟩
          · exact hMem q hq
      · refine ⟨issueEvents (insertDetails db ti).1 ++ E, by rw [hE]; simp, ?_, ?_⟩
        · simp only [List.mem_append]
          rintro (h | h)
          · simp [issueEvents] at h
          · exact hcE h
        · simp only [List.mem_append]
          rintro (h | h)
          · simp [issueEvents] at h
          · exact hdE h

/-- The issuance loop only ever appends to the event trace. -/
theorem issueLoop_events_mono (pdfGen : Nat → Option String) (ti now : Nat) :
    ∀ (n : Nat) (db : DB) (pdfs : List String) (evs : List VpEvent),
      ∃ E, (issueLoop pdfGen ti now n db pdfs evs).2 = evs ++ E := by
  intro n
  induction n with
  | zero => intro db pdfs evs; exact ⟨[], by simp [issueLoop]⟩
  | succ n ih =>
    intro db pdfs evs
    unfold issueLoop
    cases hpg : pdfGen (insertDetails db ti).1 with
    | none => exact ⟨issueEvents (insertDetails db ti).1, by simp⟩
    | some p =>
      obtain ⟨E, hE⟩ := ih (issueStepDB db ti now) (pdfs ++ [p])
        (evs ++ issueEvents (insertDetails db ti).1)
      exact ⟨issueEvents (insertDetails db ti).1 ++ E, by simp [hE]⟩

/-- On a nonempty loop, the trace continues with the first unit's insert,
credential and PDF events, in that order. -/
theorem issueLoop_succ_events (pdfGen : Nat → Option String) (ti now n : Nat)
    (db : DB) (pdfs : List String) (evs : List VpEvent) :
    ∃ E, (issueLoop pdfGen ti now (Nat.succ n) db pdfs evs).2 =
      evs ++ VpEvent.insertUnit db.nextDetailsId ::
        VpEvent.setCredential db.nextDetailsId ::
        VpEvent.genPdf db.nextDetailsId :: E := by
  unfold issueLoop
  cases hpg : pdfGen (insertDetails db ti).1 with
  | none => exact ⟨[], by simp [issueEvents, insertDetails_fst]⟩
  | some p =>
    obtain ⟨E, hE⟩ := issueLoop_events_mono pdfGen ti now n (issueStepDB db ti now)
      (pdfs ++ [p]) (evs ++ issueEvents (insertDetails db ti).1)
    refine ⟨E, ?_⟩
    rw [hE]
    simp [issueEvents, insertDetails_fst]

/-- If the artifact generator never fails, the loop succeeds. -/
theorem issueLoop_total (pdfGen : Nat → Option String)
    (hpg : ∀ d, (pdfGen d).isSome = true) (ti now : Nat) :
    ∀ (n : Nat) (db : DB) (pdfs : List String) (evs : List VpEvent),
      ∃ r evs2, issueLoop pdfGen ti now n db pdfs evs = (some r, evs2) := by
  intro n
  induction n with
  | zero => intro db pdfs evs; exact ⟨(db, pdfs), evs, rfl⟩
  | succ n ih =>
    intro db pdfs evs
    unfold issueLoop
    cases hp : pdfGen (insertDetails db ti).1 with
    | none => exact absurd (hpg (insertDetails db ti).1) (by simp [hp])
    | some p =>
      exact ih (issueStepDB db ti now) (pdfs ++ [p])
        (evs ++ issueEvents (insertDetails db ti).1)

/-!
## Branch lemmas for `verify_payment`
-/

theorem vp_notfound (db : DB) (pdfGen : Nat → Option String) (now ti : Nat)
    (tok : List Char) (h : findIssue db ti = none) :
    verify_payment db pdfGen now ti tok = ⟨⟨0, "TicketIssue not found"⟩, db, []⟩ := by
  unfold verify_payment
  simp only [h]

theorem vp_already (db : DB) (pdfGen : Nat → Option String) (now ti : Nat)
    (tok : List Char) (issue : TicketIssueRow)
    (hfind : findIssue db ti = some issue)
    (hguard : (!issue.transactionId.isEmpty &&
      payTok.isPrefixOf issue.transactionId) = true) :
    verify_payment db pdfGen now ti tok =
      ⟨⟨0, "Payment already processed"⟩, db, []⟩ := by
  unfold verify_payment
  simp only [hfind, hguard, if_true]

theorem vp_rollback (db : DB) (pdfGen : Nat → Option String) (now ti : Nat)
    (tok : List Char) (issue : TicketIssueRow) (evs : List VpEvent)
    (hfind : findIssue db ti = some issue)
    (hguard : (!issue.transactionId.isEmpty &&
      payTok.isPrefixOf issue.transactionId) = false)
    (hloop : issueLoop pdfGen ti now issue.ticketCount
        (updateIssue db ti (fun r => { r with transactionId := tok })) []
        [VpEvent.setTransaction] = (none, evs)) :
    verify_payment db pdfGen now ti tok =
      ⟨⟨0, "Payment verification failed"⟩, db, evs⟩ := by
  unfold verify_payment
  simp only [hfind, hguard, hloop, if_false, Bool.false_eq_true]

theorem vp_success (db : DB) (pdfGen : Nat → Option String) (now ti : Nat)
    (tok : List Char) (issue : TicketIssueRow) (db2 : DB)
    (pdfs2 : List String) (evs2 : List VpEvent)
    (hfind : findIssue db ti = some issue)
    (hguard : (!issue.transactionId.isEmpty &&
      payTok.isPrefixOf issue.transactionId) = false)
    (hloop : issueLoop pdfGen ti now issue.ticketCount
        (updateIssue db ti (fun r => { r with transactionId := tok })) []
        [VpEvent.setTransaction] = (some (db2, pdfs2), evs2)) :
    verify_payment db pdfGen now ti tok =
      ⟨⟨1, "Payment verified and tickets issued successfully"⟩, db2,
        evs2 ++ [VpEvent.commit, VpEvent.dispatchNotifications]⟩ := by
  unfold verify_payment
  simp only [hfind, hguard, hloop, if_false, Bool.false_eq_true]

/-!
## Claim C3: credential round-trip
-/

/-- The full decode pipeline applied to a scanned credential, as `scan_qr`
performs it: decrypt, split into three pipe-separated fields, `int()` the
unit id (line 321) and the intent id (line 372). -/
def decodeCredential (payload : List Char) : Option (Nat × Nat) :=
  match decrypt_qr_data payload with
  | none => none
  | some decoded =>
    match parse3 decoded with
    | none => none
    | some (tiStr, detailsId, _ts) =>
      match strToNat? tiStr with
      | some tid => some (tid, detailsId)
      | none => none

/-- C3: for all valid integer pairs, decoding the encoded credential returns
the original `(intentId, unitId)` pair unchanged, the numeric unit identifier
round-tripping without loss (for any pipe-free generation timestamp). -/
theorem claim_C3 (i d : Nat) (ts : List Char) (hts : '|' ∉ ts) :
    decodeCredential (generate_qr_string i d ts) = some (i, d) := by
  unfold decodeCredential
  simp only [generate_qr_string, decrypt_encrypt, parse3_encode i d hts,
    strToNat?_natToStr]

/-- Witness for C3 at `intentId = 12`, `unitId = 34`, timestamp `"7"`. -/
theorem claim_C3_witness :
    '|' ∉ ['7'] ∧ decodeCredential (generate_qr_string 12 34 ['7']) = some (12, 34) :=
  ⟨by decide, claim_C3 12 34 ['7'] (by decide)⟩

/-!
## Claim C4: replay safety of the admission validator
-/

theorem isBlank_encrypt (s : List Char) : isBlank (encryptPayload s) = false := rfl

/-- C4: for every unit whose entry flag is already set, scanning that unit's
credential again returns the already-admitted outcome (`status 1`,
`"Ticket already used"`) and performs no mutation: the database state,
including the unit's entry flag and entry timestamp, is returned unchanged. -/
theorem claim_C4 (db : DB) (now i d : Nat) (ts : List Char)
    (u : TicketIssueDetailsRow) (hts : '|' ∉ ts)
    (hu : findDetails db d = some u) (hent : u.isPersonEntered = true) :
    scan_qr db now (generate_qr_string i d ts) =
      ({ status := 1, message := "Ticket already used" }, db) := by
  unfold scan_qr
  simp only [generate_qr_string, isBlank_encrypt, Bool.false_eq_true, if_false,
    decrypt_encrypt, parse3_encode i d hts, hu, hent, if_true]

/-- Witness for C4: a one-unit database whose unit 5 is already admitted. -/
theorem claim_C4_witness :
    scan_qr
        { ticketIssues := [],
          ticketIssueDetails := [(5,
            { ticketIssueId := 9, qrCode := some (generate_qr_string 9 5 ['1']),
              isPersonEntered := true, entryDateTime := some 50 })],
          ticketClassifications := [], nextIssueId := 1, nextDetailsId := 6 }
        77 (generate_qr_string 9 5 ['1']) =
      ({ status := 1, message := "Ticket already used" },
        { ticketIssues := [],
          ticketIssueDetails := [(5,
            { ticketIssueId := 9, qrCode := some (generate_qr_string 9 5 ['1']),
              isPersonEntered := true, entryDateTime := some 50 })],
          ticketClassifications := [], nextIssueId := 1, nextDetailsId := 6 }) :=
  claim_C4 _ 77 9 5 ['1']
    { ticketIssueId := 9, qrCode := some (generate_qr_string 9 5 ['1']),
      isPersonEntered := true, entryDateTime := some 50 }
    (by decide) (by decide) rfl

/-!
## Claim C10: the decoded intent identifier is echoed unverified
-/

/-- C10: admission is decided solely by the decoded unit identifier; the
intent identifier embedded in the payload is echoed back in the `ADMITTED`
response without being checked against the unit's owning intent, so a
payload pairing a valid unit with a foreign intent identifier yields an
`ADMITTED` response whose intent identifier is the forged one, not the
owner's. -/
theorem claim_C10 (db : DB) (now i d : Nat) (ts : List Char)
    (u : TicketIssueDetailsRow) (hts : '|' ∉ ts)
    (hu : findDetails db d = some u) (hent : u.isPersonEntered = false) :
    (scan_qr db now (generate_qr_string i d ts)).1 =
      { status := 0, message := "Entry allowed",
        ticketIssueId := some i, ticketIssueDetailsId := some d } ∧
      (u.ticketIssueId ≠ i →
        (scan_qr db now (generate_qr_string i d ts)).1.ticketIssueId ≠
          some u.ticketIssueId) := by
  have h1 : (scan_qr db now (generate_qr_string i d ts)).1 =
      { status := 0, message := "Entry allowed",
        ticketIssueId := some i, ticketIssueDetailsId := some d } := by
    unfold scan_qr
    simp only [generate_qr_string, isBlank_encrypt, Bool.false_eq_true, if_false,
      decrypt_encrypt, parse3_encode i d hts, hu, hent, strToNat?_natToStr]
  refine ⟨h1, fun hne => ?_⟩
  rw [h1]
  intro hEq
  injection hEq with hEq
  exact hne hEq.symm

/-- Witness for C10: unit 5 is owned by intent 9, but a payload forged with
intent identifier 7 is admitted and echoes 7. -/
theorem claim_C10_witness :
    (scan_qr
        { ticketIssues := [],
          ticketIssueDetails := [(5,
            { ticketIssueId := 9, qrCode := some (generate_qr_string 9 5 ['1']),
              isPersonEntered := false, entryDateTime := none })],
          ticketClassifications := [], nextIssueId := 1, nextDetailsId := 6 }
        77 (generate_qr_string 7 5 ['1'])).1 =
      { status := 0, message := "Entry allowed",
        ticketIssueId := some 7, ticketIssueDetailsId := some 5 } ∧
      ((9 : Nat) ≠ 7 →
        (scan_qr
          { ticketIssues := [],
            ticketIssueDetails := [(5,
              { ticketIssueId := 9, qrCode := some (generate_qr_string 9 5 ['1']),
                isPersonEntered := false, entryDateTime := none })],
            ticketClassifications := [], nextIssueId := 1, nextDetailsId := 6 }
          77 (generate_qr_string 7 5 ['1'])).1.ticketIssueId ≠ some 9) :=
  claim_C10 _ 77 7 5 ['1']
    { ticketIssueId := 9, qrCode := some (generate_qr_string 9 5 ['1']),
      isPersonEntered := false, entryDateTime := none }
    (by decide) (by decide) rfl

/-!
## Claim C7: the admission validator's outcome enumeration
-/

/-- Response of step 1 (blank payload). -/
def scanRespEmpty : ScanResponse := { status := 2, message := "QR code cannot be empty" }

/-- Response of step 2 (payload that cannot be decrypted). -/
def scanRespInvalid : ScanResponse := { status := 2, message := "Invalid QR code" }

/-- Response of step 3 (decrypted payload of the wrong shape). -/
def scanRespFormat : ScanResponse := { status := 2, message := "Invalid QR code format" }

/-- Response of step 4 (no such unit). -/
def scanRespUnknown : ScanResponse := { status := 2, message := "Invalid ticket" }

/-- Response of step 5 (unit already admitted). -/
def scanRespAlready : ScanResponse := { status := 1, message := "Ticket already used" }

/-- Success response, carrying the echoed intent id and the unit id. -/
def scanRespAdmit (tid d : Nat) : ScanResponse :=
  { status := 0, message := "Entry allowed",
    ticketIssueId := some tid, ticketIssueDetailsId := some d }

/-- Response of the post-commit failure path (`except` handler, line 376). -/
def scanRespInternal : ScanResponse := { status := 2, message := "Internal server error" }

/-- Claim C7 as stated, as a decidable check: the scan result is one of the
five outcomes of spec §4.3, chosen by the first failing step in the fixed
order, with the otherwise-branch an `ADMITTED` response carrying the owning
intent identifier; all non-admitting steps leave the state unchanged. -/
def scanFiveOutcome (db : DB) (now : Nat) (p : List Char) : Bool :=
  if isBlank p then decide (scan_qr db now p = (scanRespEmpty, db))
  else
    match decrypt_qr_data p with
    | none => decide (scan_qr db now p = (scanRespInvalid, db))
    | some decoded =>
      match parse3 decoded with
      | none => decide (scan_qr db now p = (scanRespFormat, db))
      | some (_a, d, _ts) =>
        match findDetails db d with
        | none => decide (scan_qr db now p = (scanRespUnknown, db))
        | some u =>
          if u.isPersonEntered then decide (scan_qr db now p = (scanRespAlready, db))
          else decide ((scan_qr db now p).1 = scanRespAdmit u.ticketIssueId d)

/-- Claim C7 as stated: every scan lands in one of the five spec outcomes. -/
def admissionFiveOutcomes : Prop := ∀ db now p, scanFiveOutcome db now p = true

/-- Counterexample to C7 as stated: the payload decrypting to `"abc|5|1"` has
a numeric unit field naming an existing unadmitted unit but a non-numeric
intent field, so `scan_qr` marks the unit admitted, then fails at
`int(ticket_issue_id)` (line 372) and answers `Internal server error` — a
sixth outcome outside the claimed five. -/
theorem claim_C7_counterexample : ¬ admissionFiveOutcomes := by
  intro h
  exact absurd
    (h { ticketIssues := [],
         ticketIssueDetails := [(5,
           { ticketIssueId := 9, qrCode := some (encryptPayload ['9', '|', '5', '|', '1']),
             isPersonEntered := false, entryDateTime := none })],
         ticketClassifications := [], nextIssueId := 1, nextDetailsId := 6 }
      77 (encryptPayload ['a', 'b', 'c', '|', '5', '|', '1']))
    (by decide)

/-- C7 (amended), as a per-branch specification: six pairwise-distinct
outcomes, chosen by the first failing step in the fixed order; the first five
steps leave the state unchanged; when the decoded intent field parses as an
integer the result is `ADMITTED` echoing the decoded (not the owning) intent
identifier with the unit marked admitted; when it does not parse, the unit is
still marked admitted and the call answers `Internal server error`. -/
def scanSixOutcome (db : DB) (now : Nat) (p : List Char) : Prop :=
  if isBlank p then scan_qr db now p = (scanRespEmpty, db)
  else
    match decrypt_qr_data p with
    | none => scan_qr db now p = (scanRespInvalid, db)
    | some decoded =>
      match parse3 decoded with
      | none => scan_qr db now p = (scanRespFormat, db)
      | some (a, d, _ts) =>
        match findDetails db d with
        | none => scan_qr db now p = (scanRespUnknown, db)
        | some u =>
          if u.isPersonEntered then scan_qr db now p = (scanRespAlready, db)
          else
            match strToNat? a with
            | some tid => scan_qr db now p = (scanRespAdmit tid d, admitUnit db d now)
            | none => scan_qr db now p = (scanRespInternal, admitUnit db d now)

/-- C7 (amended): every scan lands in exactly the branch of `scanSixOutcome`
selected by the first failing step, and the six responses are pairwise
distinct (distinct messages). -/
theorem claim_C7 :
    (∀ (db : DB) (now : Nat) (p : List Char), scanSixOutcome db now p) ∧
      List.Pairwise (fun a b => a ≠ b)
        [scanRespEmpty.message, scanRespInvalid.message, scanRespFormat.message,
          scanRespUnknown.message, scanRespAlready.message,
          (scanRespAdmit 0 0).message, scanRespInternal.message] := by
  constructor
  · intro db now p
    unfold scanSixOutcome
    by_cases hb : isBlank p
    · rw [if_pos hb]
      simp [scan_qr, hb, scanRespEmpty]
    · rw [if_neg hb]
      cases hdec : decrypt_qr_data p with
      | none => simp [scan_qr, hb, hdec, scanRespInvalid]
      | some decoded =>
        dsimp only
        cases hp3 : parse3 decoded with
        | none => simp [scan_qr, hb, hdec, hp3, scanRespFormat]
        | some t =>
          obtain ⟨a, d, ts⟩ := t
          dsimp only
          cases hfd : findDetails db d with
          | none => simp [scan_qr, hb, hdec, hp3, hfd, scanRespUnknown]
          | some u =>
            dsimp only
            by_cases hent : u.isPersonEntered
            · rw [if_pos hent]
              simp [scan_qr, hb, hdec, hp3, hfd, hent, scanRespAlready]
            · rw [if_neg hent]
              cases hti : strToNat? a with
              | some tid =>
                simp [scan_qr, hb, hdec, hp3, hfd, hent, hti, scanRespAdmit]
              | none =>
                simp [scan_qr, hb, hdec, hp3, hfd, hent, hti, scanRespInternal]
  · decide

/-!
## Claim C2: atomicity of issuance
-/

theorem unitsOf_of_append (db db2 : DB) (ti : Nat)
    (L : List (Nat × TicketIssueDetailsRow))
    (hdet : db2.ticketIssueDetails = db.ticketIssueDetails ++ L)
    (hall : ∀ p ∈ L, p.2.ticketIssueId = ti) :
    unitsOf db2 ti = unitsOf db ti ++ L.map (fun p => p.2) := by
  unfold unitsOf
  rw [hdet, List.filter_append, List.map_append]
  congr 2
  exact List.filter_eq_self.mpr (fun p hp => by simp [hall p hp])

/-- C2: `verify_payment` is atomic.  For an intent with no pre-existing
units: if the call succeeds, exactly `ticketCount` unit rows owned by the
intent are visible and every one of them has its credential assigned; if the
call does not succeed (intent unknown, idempotency short-circuit, or any
failure inside the transaction such as a PDF-render error), the visible
database state is exactly the pre-call state — no partial unit rows and no
settlement-reference change. -/
theorem claim_C2 (db : DB) (pdfGen : Nat → Option String) (now ti : Nat)
    (tok : List Char) (issue : TicketIssueRow)
    (hwf : DBwf db)
    (hfind : findIssue db ti = some issue)
    (hunits : unitsOf db ti = []) :
    ((verify_payment db pdfGen now ti tok).resp.status = 1 →
      (unitsOf (verify_payment db pdfGen now ti tok).db ti).length = issue.ticketCount ∧
        ∀ u ∈ unitsOf (verify_payment db pdfGen now ti tok).db ti,
          u.qrCode.isSome = true) ∧
      ((verify_payment db pdfGen now ti tok).resp.status ≠ 1 →
        (verify_payment db pdfGen now ti tok).db = db) := by
  cases hguard : (!issue.transactionId.isEmpty &&
      payTok.isPrefixOf issue.transactionId) with
  | true =>
    rw [vp_already db pdfGen now ti tok issue hfind hguard]
    exact ⟨fun h => absurd h (by simp), fun _ => rfl⟩
  | false =>
    cases hloop : issueLoop pdfGen ti now issue.ticketCount
        (updateIssue db ti (fun r => { r with transactionId := tok })) []
        [VpEvent.setTransaction] with
    | mk res evs =>
      cases res with
      | none =>
        rw [vp_rollback db pdfGen now ti tok issue evs hfind hguard hloop]
        exact ⟨fun h => absurd h (by simp), fun _ => rfl⟩
      | some r =>
        obtain ⟨db2, pdfs2⟩ := r
        rw [vp_success db pdfGen now ti tok issue db2 pdfs2 evs hfind hguard hloop]
        refine ⟨fun _ => ?_, fun h => absurd rfl h⟩
        have hwfd1 : ∀ p ∈ (updateIssue db ti
            (fun r => { r with transactionId := tok })).ticketIssueDetails,
            p.1 < (updateIssue db ti
              (fun r => { r with transactionId := tok })).nextDetailsId := by
          rw [updateIssue_details, updateIssue_nextDetails]
          exact hwf.2
        obtain ⟨hIss, hCls, hNI, hwf3, ⟨L, hL, hLen, hMem⟩, hE⟩ :=
          issueLoop_sound pdfGen ti now issue.ticketCount _ [] [VpEvent.setTransaction]
            db2 pdfs2 evs hwfd1 hloop
        have hunitsEq : unitsOf db2 ti =
            unitsOf (updateIssue db ti (fun r => { r with transactionId := tok })) ti ++
              L.map (fun p => p.2) :=
          unitsOf_of_append _ db2 ti L hL (fun p hp => (hMem p hp).1)
        rw [unitsOf_updateIssue, hunits] at hunitsEq
        constructor
        · rw [hunitsEq]
          simp [hLen]
        · intro u hu
          rw [hunitsEq] at hu
          simp only [List.nil_append, List.mem_map] at hu
          obtain ⟨p, hp, rfl⟩ := hu
          exact (hMem p hp).2.1

/-- Witness for C2: a fresh two-ticket intent; the call succeeds and exactly
two credentialed units exist (the failure conjunct is vacuous). -/
theorem claim_C2_witness :
    ((verify_payment
        { ticketIssues := [(1,
            { ticketMasterId := 2, mobileNo := "m", emailId := "e",
              ticketCount := 2, totalAmount := 1000, name := "n", transactionId := [] })],
          ticketIssueDetails := [], ticketClassifications := [],
          nextIssueId := 2, nextDetailsId := 10 }
        (fun _ => some "t.pdf") 3 1 ['p', 'a', 'y', '_', '7']).resp.status = 1 →
      (unitsOf (verify_payment
        { ticketIssues := [(1,
            { ticketMasterId := 2, mobileNo := "m", emailId := "e",
              ticketCount := 2, totalAmount := 1000, name := "n", transactionId := [] })],
          ticketIssueDetails := [], ticketClassifications := [],
          nextIssueId := 2, nextDetailsId := 10 }
        (fun _ => some "t.pdf") 3 1 ['p', 'a', 'y', '_', '7']).db 1).length = 2 ∧
        ∀ u ∈ unitsOf (verify_payment
          { ticketIssues := [(1,
              { ticketMasterId := 2, mobileNo := "m", emailId := "e",
                ticketCount := 2, totalAmount := 1000, name := "n", transactionId := [] })],
            ticketIssueDetails := [], ticketClassifications := [],
            nextIssueId := 2, nextDetailsId := 10 }
          (fun _ => some "t.pdf") 3 1 ['p', 'a', 'y', '_', '7']).db 1,
          u.qrCode.isSome = true) ∧
      ((verify_payment
        { ticketIssues := [(1,
            { ticketMasterId := 2, mobileNo := "m", emailId := "e",
              ticketCount := 2, totalAmount := 1000, name := "n", transactionId := [] })],
          ticketIssueDetails := [], ticketClassifications := [],
          nextIssueId := 2, nextDetailsId := 10 }
        (fun _ => some "t.pdf") 3 1 ['p', 'a', 'y', '_', '7']).resp.status ≠ 1 →
        (verify_payment
          { ticketIssues := [(1,
              { ticketMasterId := 2, mobileNo := "m", emailId := "e",
                ticketCount := 2, totalAmount := 1000, name := "n", transactionId := [] })],
            ticketIssueDetails := [], ticketClassifications := [],
            nextIssueId := 2, nextDetailsId := 10 }
          (fun _ => some "t.pdf") 3 1 ['p', 'a', 'y', '_', '7']).db =
          { ticketIssues := [(1,
              { ticketMasterId := 2, mobileNo := "m", emailId := "e",
                ticketCount := 2, totalAmount := 1000, name := "n", transactionId := [] })],
            ticketIssueDetails := [], ticketClassifications := [],
            nextIssueId := 2, nextDetailsId := 10 }) :=
  claim_C2 _ (fun _ => some "t.pdf") 3 1 ['p', 'a', 'y', '_', '7']
    { ticketMasterId := 2, mobileNo := "m", emailId := "e",
      ticketCount := 2, totalAmount := 1000, name := "n", transactionId := [] }
    (by constructor <;> decide) (by decide) (by decide)

/-!
## Claim C1: idempotency of `confirmPayment`
-/

/-- `findIssue` only reads the `TicketIssue` table. -/
theorem findIssue_congr (db db2 : DB) (h : db2.ticketIssues = db.ticketIssues)
    (i : Nat) : findIssue db2 i = findIssue db i := by
  unfold findIssue
  rw [h]

/-- The issuance loop never touches the `TicketIssue` table (no
well-formedness needed). -/
theorem issueLoop_issues (pdfGen : Nat → Option String) (ti now : Nat) :
    ∀ (n : Nat) (db : DB) (pdfs : List String) (evs : List VpEvent)
      (db2 : DB) (pdfs2 : List String) (evs2 : List VpEvent),
      issueLoop pdfGen ti now n db pdfs evs = (some (db2, pdfs2), evs2) →
      db2.ticketIssues = db.ticketIssues := by
  intro n
  induction n with
  | zero =>
    intro db pdfs evs db2 pdfs2 evs2 hrun
    unfold issueLoop at hrun
    injection hrun with hA hB
    injection hA with hC
    injection hC with hD hE
    rw [← hD]
  | succ n ih =>
    intro db pdfs evs db2 pdfs2 evs2 hrun
    unfold issueLoop at hrun
    cases hpg : pdfGen (insertDetails db ti).1 with
    | none =>
      simp only [hpg] at hrun
      injection hrun with h1 h2
      exact Option.noConfusion h1
    | some p =>
      simp only [hpg] at hrun
      exact (ih (issueStepDB db ti now) (pdfs ++ [p])
        (evs ++ issueEvents (insertDetails db ti).1) db2 pdfs2 evs2 hrun).trans
        (issueStepDB_issues db ti now)

theorem payTok_prefix_nonempty {tok : List Char}
    (h : payTok.isPrefixOf tok = true) : tok.isEmpty = false := by
  cases tok with
  | nil => simp [payTok, List.isPrefixOf] at h
  | cons c cs => rfl

/-- Claim C1 as stated: for every existing, not-yet-settled intent, if a
first `confirmPayment` call with some `(intentId, paymentToken)` succeeds,
then a second call with the same pair answers `Payment already processed`
and changes nothing. -/
def confirmPaymentIdempotent : Prop :=
  ∀ (db : DB) (pdfGen pdfGen2 : Nat → Option String) (now now2 ti : Nat)
    (tok : List Char) (issue : TicketIssueRow),
    findIssue db ti = some issue →
    issue.transactionId = [] →
    (verify_payment db pdfGen now ti tok).resp.status = 1 →
    (verify_payment (verify_payment db pdfGen now ti tok).db
        pdfGen2 now2 ti tok).resp.message = "Payment already processed" ∧
      (verify_payment (verify_payment db pdfGen now ti tok).db
        pdfGen2 now2 ti tok).db = (verify_payment db pdfGen now ti tok).db

/-- Counterexample to C1 as stated: with the payment token `"tok"` (which
does not start with `"pay_"`), the guard `existing_transaction.startswith`
(`src/main.py` line 1003) never fires, so the second call issues a second
batch of units instead of answering `Payment already processed`. -/
theorem claim_C1_counterexample : ¬ confirmPaymentIdempotent := by
  intro h
  have := h
    { ticketIssues := [(1,
        { ticketMasterId := 2, mobileNo := "m", emailId := "e",
          ticketCount := 1, totalAmount := 500, name := "n", transactionId := [] })],
      ticketIssueDetails := [], ticketClassifications := [],
      nextIssueId := 2, nextDetailsId := 10 }
    (fun _ => some "t.pdf") (fun _ => some "t.pdf") 3 4 1 ['t', 'o', 'k']
    { ticketMasterId := 2, mobileNo := "m", emailId := "e",
      ticketCount := 1, totalAmount := 500, name := "n", transactionId := [] }
    (by decide) (by decide) (by decide)
  exact absurd this.1 (by decide)

/-- C1 (amended): for every intent and any two calls with the same
`(intentId, paymentToken)` where the token is a confirmed-payment token
(starts with `"pay_"`, as Razorpay payment ids do): if the first call
succeeds, the second call answers `Payment already processed`, sets no
settlement reference, inserts no further `TicketIssueDetails` rows, and
leaves the database exactly as the first call left it. -/
theorem claim_C1 (db : DB) (pdfGen pdfGen2 : Nat → Option String)
    (now now2 ti : Nat) (tok : List Char)
    (hpay : payTok.isPrefixOf tok = true)
    (h1 : (verify_payment db pdfGen now ti tok).resp.status = 1) :
    verify_payment (verify_payment db pdfGen now ti tok).db pdfGen2 now2 ti tok =
      ⟨⟨0, "Payment already processed"⟩,
        (verify_payment db pdfGen now ti tok).db, []⟩ := by
  cases hfind : findIssue db ti with
  | none =>
    rw [vp_notfound db pdfGen now ti tok hfind] at h1
    exact absurd h1 (by simp)
  | some issue =>
    cases hguard : (!issue.transactionId.isEmpty &&
        payTok.isPrefixOf issue.transactionId) with
    | true =>
      rw [vp_already db pdfGen now ti tok issue hfind hguard] at h1
      exact absurd h1 (by simp)
    | false =>
      cases hloop : issueLoop pdfGen ti now issue.ticketCount
          (updateIssue db ti (fun r => { r with transactionId := tok })) []
          [VpEvent.setTransaction] with
      | mk res evs =>
        cases res with
        | none =>
          rw [vp_rollback db pdfGen now ti tok issue evs hfind hguard hloop] at h1
          exact absurd h1 (by simp)
        | some r =>
          obtain ⟨db2, pdfs2⟩ := r
          rw [vp_success db pdfGen now ti tok issue db2 pdfs2 evs hfind hguard hloop] at h1 ⊢
          have hIss : db2.ticketIssues =
              (updateIssue db ti (fun r => { r with transactionId := tok })).ticketIssues :=
            issueLoop_issues pdfGen ti now issue.ticketCount _ [] [VpEvent.setTransaction]
              db2 pdfs2 evs hloop
          have hfind2 : findIssue db2 ti = some { issue with transactionId := tok } := by
            rw [findIssue_congr _ _ hIss ti, findIssue_updateIssue, hfind, Option.map_some']
          have hguard2 : (!({ issue with transactionId := tok } :
                TicketIssueRow).transactionId.isEmpty &&
              payTok.isPrefixOf ({ issue with transactionId := tok } :
                TicketIssueRow).transactionId) = true := by
            simp only [payTok_prefix_nonempty hpay, hpay, Bool.not_false, Bool.and_self]
          exact vp_already db2 pdfGen2 now2 ti tok
            { issue with transactionId := tok } hfind2 hguard2

/-- Witness for C1 (amended): a one-ticket intent confirmed twice with the
Razorpay-style token `"pay_7"`. -/
theorem claim_C1_witness :
    verify_payment
        (verify_payment
          { ticketIssues := [(1,
              { ticketMasterId := 2, mobileNo := "m", emailId := "e",
                ticketCount := 1, totalAmount := 500, name := "n", transactionId := [] })],
            ticketIssueDetails := [], ticketClassifications := [],
            nextIssueId := 2, nextDetailsId := 10 }
          (fun _ => some "t.pdf") 3 1 ['p', 'a', 'y', '_', '7']).db
        (fun _ => some "t.pdf") 4 1 ['p', 'a', 'y', '_', '7'] =
      ⟨⟨0, "Payment already processed"⟩,
        (verify_payment
          { ticketIssues := [(1,
              { ticketMasterId := 2, mobileNo := "m", emailId := "e",
                ticketCount := 1, totalAmount := 500, name := "n", transactionId := [] })],
            ticketIssueDetails := [], ticketClassifications := [],
            nextIssueId := 2, nextDetailsId := 10 }
          (fun _ => some "t.pdf") 3 1 ['p', 'a', 'y', '_', '7']).db, []⟩ :=
  claim_C1 _ (fun _ => some "t.pdf") (fun _ => some "t.pdf") 3 4 1
    ['p', 'a', 'y', '_', '7'] (by decide) (by decide)

/-!
## Claim C9: no re-validation at confirmation time
-/

/-- Claim C9 as stated: when the requested unit count of an intent is below
the minimum of a rate class of the intent's event, `confirmPayment` rejects
instead of issuing. -/
def confirmRevalidatesMinimum : Prop :=
  ∀ (db : DB) (pdfGen : Nat → Option String) (now ti : Nat) (tok : List Char)
    (issue : TicketIssueRow) (cls : TicketClassificationRow),
    findIssue db ti = some issue →
    cls ∈ db.ticketClassifications →
    cls.ticketMasterId = issue.ticketMasterId →
    issue.ticketCount < cls.minimumTickets →
    (verify_payment db pdfGen now ti tok).resp.status ≠ 1

/-- Counterexample to C9 as stated: an intent quoted for 1 ticket while the
event's (current) rate class requires a minimum of 5 is still confirmed with
status 1 — `verify_payment` never reads `TicketClassification`. -/
theorem claim_C9_counterexample : ¬ confirmRevalidatesMinimum := by
  intro h
  have hx := h
    { ticketIssues := [(1,
        { ticketMasterId := 2, mobileNo := "m", emailId := "e",
          ticketCount := 1, totalAmount := 500, name := "n", transactionId := [] })],
      ticketIssueDetails := [],
      ticketClassifications := [
        { ticketMasterId := 2, ticketClassificationId := 3,
          ticketRate := 500, minimumTickets := 5 }],
      nextIssueId := 2, nextDetailsId := 10 }
    (fun _ => some "t.pdf") 3 1 ['p', 'a', 'y', '_', '7']
    { ticketMasterId := 2, mobileNo := "m", emailId := "e",
      ticketCount := 1, totalAmount := 500, name := "n", transactionId := [] }
    { ticketMasterId := 2, ticketClassificationId := 3,
      ticketRate := 500, minimumTickets := 5 }
    (by decide) (by decide) (by decide) (by decide)
  exact hx (by decide)

/-- C9 (amended): `confirmPayment` performs no quantity re-validation against
the rate class.  For every existing, not-yet-settled intent whose artifact
generation succeeds, confirmation succeeds and issues exactly the originally
quoted count — even when that count is below the minimum of every rate class
currently in the database. -/
theorem claim_C9 (db : DB) (pdfGen : Nat → Option String) (now ti : Nat)
    (tok : List Char) (issue : TicketIssueRow)
    (hwf : DBwf db)
    (hfind : findIssue db ti = some issue)
    (hfresh : issue.transactionId = [])
    (hpdf : ∀ d, (pdfGen d).isSome = true)
    (_hmin : ∀ cls ∈ db.ticketClassifications,
      issue.ticketCount < cls.minimumTickets) :
    (verify_payment db pdfGen now ti tok).resp.status = 1 ∧
      (unitsOf (verify_payment db pdfGen now ti tok).db ti).length =
        (unitsOf db ti).length + issue.ticketCount := by
  have hguard : (!issue.transactionId.isEmpty &&
      payTok.isPrefixOf issue.transactionId) = false := by
    rw [hfresh]
    rfl
  obtain ⟨r, evs2, hloop⟩ := issueLoop_total pdfGen hpdf ti now issue.ticketCount
    (updateIssue db ti (fun r => { r with transactionId := tok })) []
    [VpEvent.setTransaction]
  obtain ⟨db2, pdfs2⟩ := r
  rw [vp_success db pdfGen now ti tok issue db2 pdfs2 evs2 hfind hguard hloop]
  refine ⟨rfl, ?_⟩
  have hwfd1 : ∀ p ∈ (updateIssue db ti
      (fun r => { r with transactionId := tok })).ticketIssueDetails,
      p.1 < (updateIssue db ti
        (fun r => { r with transactionId := tok })).nextDetailsId := by
    rw [updateIssue_details, updateIssue_nextDetails]
    exact hwf.2
  obtain ⟨hIss, hCls, hNI, hwf3, ⟨L, hL, hLen, hMem⟩, hE⟩ :=
    issueLoop_sound pdfGen ti now issue.ticketCount _ [] [VpEvent.setTransaction]
      db2 pdfs2 evs2 hwfd1 hloop
  have hunitsEq : unitsOf db2 ti =
      unitsOf (updateIssue db ti (fun r => { r with transactionId := tok })) ti ++
        L.map (fun p => p.2) :=
    unitsOf_of_append _ db2 ti L hL (fun p hp => (hMem p hp).1)
  rw [unitsOf_updateIssue] at hunitsEq
  rw [hunitsEq]
  simp [hLen]

/-- Witness for C9 (amended): the counterexample database again — quoted
count 1, current minimum 5 — on which confirmation succeeds and one unit is
issued. -/
theorem claim_C9_witness :
    (verify_payment
        { ticketIssues := [(1,
            { ticketMasterId := 2, mobileNo := "m", emailId := "e",
              ticketCount := 1, totalAmount := 500, name := "n", transactionId := [] })],
          ticketIssueDetails := [],
          ticketClassifications := [
            { ticketMasterId := 2, ticketClassificationId := 3,
              ticketRate := 500, minimumTickets := 5 }],
          nextIssueId := 2, nextDetailsId := 10 }
        (fun _ => some "t.pdf") 3 1 ['p', 'a', 'y', '_', '7']).resp.status = 1 ∧
      (unitsOf (verify_payment
        { ticketIssues := [(1,
            { ticketMasterId := 2, mobileNo := "m", emailId := "e",
              ticketCount := 1, totalAmount := 500, name := "n", transactionId := [] })],
          ticketIssueDetails := [],
          ticketClassifications := [
            { ticketMasterId := 2, ticketClassificationId := 3,
              ticketRate := 500, minimumTickets := 5 }],
          nextIssueId := 2, nextDetailsId := 10 }
        (fun _ => some "t.pdf") 3 1 ['p', 'a', 'y', '_', '7']).db 1).length =
        (unitsOf
          { ticketIssues := [(1,
              { ticketMasterId := 2, mobileNo := "m", emailId := "e",
                ticketCount := 1, totalAmount := 500, name := "n", transactionId := [] })],
            ticketIssueDetails := [],
            ticketClassifications := [
              { ticketMasterId := 2, ticketClassificationId := 3,
                ticketRate := 500, minimumTickets := 5 }],
            nextIssueId := 2, nextDetailsId := 10 } 1).length + 1 :=
  claim_C9 _ (fun _ => some "t.pdf") 3 1 ['p', 'a', 'y', '_', '7']
    { ticketMasterId := 2, mobileNo := "m", emailId := "e",
      ticketCount := 1, totalAmount := 500, name := "n", transactionId := [] }
    (by constructor <;> decide) (by decide) (by decide) (fun d => rfl) (by decide)

/-!
## Claim C8: artifact generation versus the transaction commit
-/

/-- Does a PDF-render event occur strictly before the first commit event? -/
def pdfBeforeCommit : List VpEvent → Bool
  | [] => false
  | VpEvent.commit :: _ => false
  | VpEvent.genPdf _ :: _ => true
  | _ :: es => pdfBeforeCommit es

/-- Do the events end with a commit immediately followed by the notification
dispatch (dispatch after commit, nothing after dispatch)? -/
def endsCommitDispatch (evs : List VpEvent) : Bool :=
  match evs.reverse with
  | VpEvent.dispatchNotifications :: VpEvent.commit :: _ => true
  | _ => false

/-- Claim C8 as stated: in every `confirmPayment` run, artifact generation
begins only after the issuance transaction has committed — no PDF-render
event ever precedes the commit event. -/
def artifactsAfterCommit : Prop :=
  ∀ (db : DB) (pdfGen : Nat → Option String) (now ti : Nat) (tok : List Char),
    pdfBeforeCommit (verify_payment db pdfGen now ti tok).events = false

/-- Counterexample to C8 as stated: confirming a one-ticket intent renders
the PDF inside the transaction (line 1060), before `conn.commit()`
(line 1076): the trace shows `genPdf` strictly before `commit`. -/
theorem claim_C8_counterexample : ¬ artifactsAfterCommit := by
  intro h
  have hx := h
    { ticketIssues := [(1,
        { ticketMasterId := 2, mobileNo := "m", emailId := "e",
          ticketCount := 1, totalAmount := 500, name := "n", transactionId := [] })],
      ticketIssueDetails := [], ticketClassifications := [],
      nextIssueId := 2, nextDetailsId := 10 }
    (fun _ => some "t.pdf") 3 1 ['p', 'a', 'y', '_', '7']
  exact absurd hx (by decide)

/-- C8 (amended): per-unit PDF rendering runs inside the issuance
transaction, before the commit — in every successful confirmation of at
least one unit the trace contains a PDF-render event before the commit, and
only the notification dispatch follows the commit; consequently issuance
success does depend on artifact generation: if rendering the first unit's
PDF fails, the whole call fails and rolls back. -/
theorem claim_C8 (db : DB) (pdfGen : Nat → Option String) (now ti : Nat)
    (tok : List Char) (issue : TicketIssueRow) (n : Nat)
    (hfind : findIssue db ti = some issue)
    (hguard : (!issue.transactionId.isEmpty &&
      payTok.isPrefixOf issue.transactionId) = false)
    (hcount : issue.ticketCount = Nat.succ n) :
    ((verify_payment db pdfGen now ti tok).resp.status = 1 →
      pdfBeforeCommit (verify_payment db pdfGen now ti tok).events = true ∧
        endsCommitDispatch (verify_payment db pdfGen now ti tok).events = true) ∧
      (pdfGen db.nextDetailsId = none →
        (verify_payment db pdfGen now ti tok).resp.status = 0 ∧
          (verify_payment db pdfGen now ti tok).db = db) := by
  constructor
  · intro h1
    cases hloop : issueLoop pdfGen ti now issue.ticketCount
        (updateIssue db ti (fun r => { r with transactionId := tok })) []
        [VpEvent.setTransaction] with
    | mk res evs =>
      cases res with
      | none =>
        rw [vp_rollback db pdfGen now ti tok issue evs hfind hguard hloop] at h1
        exact absurd h1 (by simp)
      | some r =>
        obtain ⟨db2, pdfs2⟩ := r
        rw [vp_success db pdfGen now ti tok issue db2 pdfs2 evs hfind hguard hloop]
        have hshape := issueLoop_succ_events pdfGen ti now n
          (updateIssue db ti (fun r => { r with transactionId := tok })) []
          [VpEvent.setTransaction]
        rw [← hcount, hloop] at hshape
        obtain ⟨E, hE⟩ := hshape
        simp only at hE
        subst hE
        constructor
        · simp [pdfBeforeCommit]
        · simp [endsCommitDispatch, List.reverse_append]
  · intro hfail
    have hloop : issueLoop pdfGen ti now issue.ticketCount
        (updateIssue db ti (fun r => { r with transactionId := tok })) []
        [VpEvent.setTransaction] =
        (none, [VpEvent.setTransaction] ++ issueEvents db.nextDetailsId) := by
      rw [hcount]
      unfold issueLoop
      rw [show (insertDetails (updateIssue db ti
          (fun r => { r with transactionId := tok })) ti).1 = db.nextDetailsId from rfl,
        hfail]
    rw [vp_rollback db pdfGen now ti tok issue _ hfind hguard hloop]
    exact ⟨rfl, rfl⟩

/-- Witness for C8 (amended): a one-ticket intent whose PDF render fails —
the call reports status 0 and the database is unchanged (rollback); the
success conjunct is vacuous on this run. -/
theorem claim_C8_witness :
    ((verify_payment
        { ticketIssues := [(1,
            { ticketMasterId := 2, mobileNo := "m", emailId := "e",
              ticketCount := 1, totalAmount := 500, name := "n", transactionId := [] })],
          ticketIssueDetails := [], ticketClassifications := [],
          nextIssueId := 2, nextDetailsId := 10 }
        (fun _ => none) 3 1 ['p', 'a', 'y', '_', '7']).resp.status = 1 →
      pdfBeforeCommit (verify_payment
        { ticketIssues := [(1,
            { ticketMasterId := 2, mobileNo := "m", emailId := "e",
              ticketCount := 1, totalAmount := 500, name := "n", transactionId := [] })],
          ticketIssueDetails := [], ticketClassifications := [],
          nextIssueId := 2, nextDetailsId := 10 }
        (fun _ => none) 3 1 ['p', 'a', 'y', '_', '7']).events = true ∧
        endsCommitDispatch (verify_payment
          { ticketIssues := [(1,
              { ticketMasterId := 2, mobileNo := "m", emailId := "e",
                ticketCount := 1, totalAmount := 500, name := "n", transactionId := [] })],
            ticketIssueDetails := [], ticketClassifications := [],
            nextIssueId := 2, nextDetailsId := 10 }
          (fun _ => none) 3 1 ['p', 'a', 'y', '_', '7']).events = true) ∧
      ((fun (_ : Nat) => (none : Option String)) 10 = none →
        (verify_payment
          { ticketIssues := [(1,
              { ticketMasterId := 2, mobileNo := "m", emailId := "e",
                ticketCount := 1, totalAmount := 500, name := "n", transactionId := [] })],
            ticketIssueDetails := [], ticketClassifications := [],
            nextIssueId := 2, nextDetailsId := 10 }
          (fun _ => none) 3 1 ['p', 'a', 'y', '_', '7']).resp.status = 0 ∧
          (verify_payment
            { ticketIssues := [(1,
                { ticketMasterId := 2, mobileNo := "m", emailId := "e",
                  ticketCount := 1, totalAmount := 500, name := "n", transactionId := [] })],
              ticketIssueDetails := [], ticketClassifications := [],
              nextIssueId := 2, nextDetailsId := 10 }
            (fun _ => none) 3 1 ['p', 'a', 'y', '_', '7']).db =
            { ticketIssues := [(1,
                { ticketMasterId := 2, mobileNo := "m", emailId := "e",
                  ticketCount := 1, totalAmount := 500, name := "n", transactionId := [] })],
              ticketIssueDetails := [], ticketClassifications := [],
              nextIssueId := 2, nextDetailsId := 10 }) :=
  claim_C8 _ (fun _ => none) 3 1 ['p', 'a', 'y', '_', '7']
    { ticketMasterId := 2, mobileNo := "m", emailId := "e",
      ticketCount := 1, totalAmount := 500, name := "n", transactionId := [] }
    0 (by decide) (by decide) (by decide)

/-!
## Claim C5: exactness of the computed total
-/

theorem find?_append_no_hit {α : Type} (pred : α → Bool) :
    ∀ (l₁ l₂ : List α), (∀ a ∈ l₁, pred a = false) →
      (l₁ ++ l₂).find? pred = l₂.find? pred
  | [], l₂, _ => rfl
  | a :: l₁, l₂, h => by
    rw [List.cons_append,
      List.find?_cons_of_neg _ (by simp [h a (List.mem_cons_self a l₁)]),
      find?_append_no_hit pred l₁ l₂ (fun b hb => h b (List.mem_cons_of_mem a hb))]

/-- Reading back the row just inserted by `insertIssue` (fresh primary key). -/
theorem findIssue_insertIssue (db : DB) (row : TicketIssueRow)
    (hwf : ∀ p ∈ db.ticketIssues, p.1 < db.nextIssueId) :
    findIssue (insertIssue db row).2 (insertIssue db row).1 = some row := by
  unfold findIssue insertIssue
  simp only
  rw [find?_append_no_hit _ db.ticketIssues _
    (fun p hp => beq_false_of_ne (Nat.ne_of_lt (hwf p hp)))]
  simp

/-- Claim C5 as stated: for every float semantics satisfying the basic
binary-float facts, every existing rate class and every count at or above
the minimum, the persisted total equals `unitPrice * unitCount` exactly. -/
def exactDecimalTotals : Prop :=
  ∀ (F : FloatModel) (db : DB) (gw : String) (now : Nat) (body : CroBody)
    (cls : TicketClassificationRow),
    lookupCls db body.ticketMasterId body.ticketClassificationId = some cls →
    cls.minimumTickets ≤ body.ticketCount →
    croTotal (create_razorpay_order db F gw now body) =
      some (cls.ticketRate * (body.ticketCount : ℚ))

/-- Counterexample to C5 as stated: with unit price `100.1` and count 3 the
float-computed total is a dyadic rational and cannot equal the exact decimal
`300.3` (here instantiated with the concrete dyadic-grid float model). -/
theorem claim_C5_counterexample : ¬ exactDecimalTotals := by
  intro h
  have hx := h dyaF
    { ticketIssues := [], ticketIssueDetails := [],
      ticketClassifications := [
        { ticketMasterId := 2, ticketClassificationId := 3,
          ticketRate := 1001 / 10, minimumTickets := 1 }],
      nextIssueId := 1, nextDetailsId := 1 }
    "order_x" 0
    { ticketMasterId := 2, ticketClassificationId := 3, ticketCount := 3,
      mobileNo := "m", emailId := "e", name := "n" }
    { ticketMasterId := 2, ticketClassificationId := 3,
      ticketRate := 1001 / 10, minimumTickets := 1 }
    rfl (by norm_num)
  have hdrift := float_total_drifts dyaF
  apply hdrift
  have hval : croTotal (create_razorpay_order
      { ticketIssues := [], ticketIssueDetails := [],
        ticketClassifications := [
          { ticketMasterId := 2, ticketClassificationId := 3,
            ticketRate := 1001 / 10, minimumTickets := 1 }],
        nextIssueId := 1, nextDetailsId := 1 }
      dyaF "order_x" 0
      { ticketMasterId := 2, ticketClassificationId := 3, ticketCount := 3,
        mobileNo := "m", emailId := "e", name := "n" }) =
      some (dyaF.mul (dyaF.ofRat ((1001 : ℚ) / 10)) (dyaF.ofRat ((3 : ℕ) : ℚ))) :=
    rfl
  rw [hval] at hx
  exact Option.some.inj hx

/-- C5 (amended): the total is computed in binary floating point
(`float(row[0]) * ticket_count`, `src/main.py` lines 906-913), which is
exact when the unit price is a whole number of currency units and the
numbers stay below `2^53`: then the persisted total equals
`unitPrice * unitCount` exactly.  (For non-dyadic decimal prices such as
`100.1` the float total drifts from the exact decimal product.) -/
theorem claim_C5 (F : FloatModel) (db : DB) (gw : String) (now : Nat)
    (body : CroBody) (cls : TicketClassificationRow) (n : ℕ)
    (hwf : ∀ p ∈ db.ticketIssues, p.1 < db.nextIssueId)
    (hcls : lookupCls db body.ticketMasterId body.ticketClassificationId = some cls)
    (hrate : cls.ticketRate = (n : ℚ))
    (hmin : cls.minimumTickets ≤ body.ticketCount)
    (hn : n ≤ 2 ^ 53) (hc : body.ticketCount ≤ 2 ^ 53)
    (hprod : n * body.ticketCount ≤ 2 ^ 53) :
    croTotal (create_razorpay_order db F gw now body) =
      some ((n * body.ticketCount : ℕ) : ℚ) := by
  unfold create_razorpay_order
  simp only [hcls]
  rw [if_neg (by omega : ¬ body.ticketCount < cls.minimumTickets)]
  unfold croTotal
  simp only
  rw [findIssue_insertIssue db _ hwf]
  rw [Option.map_some']
  simp only [hrate]
  rw [F.ofRat_nat n hn, F.ofRat_nat body.ticketCount hc,
    F.mul_nat n body.ticketCount hn hc hprod]

/-- Witness for C5 (amended): unit price 500, count 3 in the dyadic-grid
float model — the stored total is exactly 1500. -/
theorem claim_C5_witness :
    croTotal (create_razorpay_order
        { ticketIssues := [], ticketIssueDetails := [],
          ticketClassifications := [
            { ticketMasterId := 2, ticketClassificationId := 3,
              ticketRate := 500, minimumTickets := 1 }],
          nextIssueId := 1, nextDetailsId := 1 }
        dyaF "order_x" 0
        { ticketMasterId := 2, ticketClassificationId := 3, ticketCount := 3,
          mobileNo := "m", emailId := "e", name := "n" }) =
      some ((500 * 3 : ℕ) : ℚ) :=
  claim_C5 dyaF _ "order_x" 0
    { ticketMasterId := 2, ticketClassificationId := 3, ticketCount := 3,
      mobileNo := "m", emailId := "e", name := "n" }
    { ticketMasterId := 2, ticketClassificationId := 3,
      ticketRate := 500, minimumTickets := 1 }
    500 (by decide) (by decide) (by norm_num) (by decide)
    (by norm_num) (by norm_num) (by norm_num)

/-!
## Claim C6: validation precedes the gateway call and any persistence
-/

/-- C6: whenever the event has no rate class for the requested
classification, or the requested count is below the rate class's minimum,
`create_razorpay_order` answers a 400 client error, calls the payment
gateway with no order, and persists nothing (the database is returned
unchanged). -/
theorem claim_C6 (db : DB) (F : FloatModel) (gw : String) (now : Nat)
    (body : CroBody)
    (hbad : ∀ cls, lookupCls db body.ticketMasterId body.ticketClassificationId =
      some cls → body.ticketCount < cls.minimumTickets) :
    (∃ detail, (create_razorpay_order db F gw now body).resp =
        CroResp.err 400 detail) ∧
      (create_razorpay_order db F gw now body).gatewayOrder = none ∧
      (create_razorpay_order db F gw now body).db = db := by
  cases hcls : lookupCls db body.ticketMasterId body.ticketClassificationId with
  | none =>
    refine ⟨⟨"Invalid ticket", ?_⟩, ?_, ?_⟩ <;>
      simp [create_razorpay_order, hcls]
  | some cls =>
    have hlt := hbad cls hcls
    refine ⟨⟨"Minimum " ++ (natToStr cls.minimumTickets).asString ++
        " tickets required", ?_⟩, ?_, ?_⟩ <;>
      simp [create_razorpay_order, hcls, hlt]

/-- Witness for C6: minimum 5, requested 2 — client error, no gateway order,
database unchanged. -/
theorem claim_C6_witness :
    (∃ detail, (create_razorpay_order
        { ticketIssues := [], ticketIssueDetails := [],
          ticketClassifications := [
            { ticketMasterId := 2, ticketClassificationId := 3,
              ticketRate := 500, minimumTickets := 5 }],
          nextIssueId := 1, nextDetailsId := 1 }
        dyaF "order_x" 0
        { ticketMasterId := 2, ticketClassificationId := 3, ticketCount := 2,
          mobileNo := "m", emailId := "e", name := "n" }).resp =
        CroResp.err 400 detail) ∧
      (create_razorpay_order
        { ticketIssues := [], ticketIssueDetails := [],
          ticketClassifications := [
            { ticketMasterId := 2, ticketClassificationId := 3,
              ticketRate := 500, minimumTickets := 5 }],
          nextIssueId := 1, nextDetailsId := 1 }
        dyaF "order_x" 0
        { ticketMasterId := 2, ticketClassificationId := 3, ticketCount := 2,
          mobileNo := "m", emailId := "e", name := "n" }).gatewayOrder = none ∧
      (create_razorpay_order
        { ticketIssues := [], ticketIssueDetails := [],
          ticketClassifications := [
            { ticketMasterId := 2, ticketClassificationId := 3,
              ticketRate := 500, minimumTickets := 5 }],
          nextIssueId := 1, nextDetailsId := 1 }
        dyaF "order_x" 0
        { ticketMasterId := 2, ticketClassificationId := 3, ticketCount := 2,
          mobileNo := "m", emailId := "e", name := "n" }).db =
        { ticketIssues := [], ticketIssueDetails := [],
          ticketClassifications := [
            { ticketMasterId := 2, ticketClassificationId := 3,
              ticketRate := 500, minimumTickets := 5 }],
          nextIssueId := 1, nextDetailsId := 1 } :=
  claim_C6 _ dyaF "order_x" 0
    { ticketMasterId := 2, ticketClassificationId := 3, ticketCount := 2,
      mobileNo := "m", emailId := "e", name := "n" }
    (fun cls hcls => by
      have h3 : some ({ ticketMasterId := 2, ticketClassificationId := 3, ticketRate := 500, minimumTickets := 5 } : TicketClassificationRow) = some cls :=
        Eq.trans rfl hcls
      injection h3 with h3
      rw [← h3]
      decide)
